import Mathlib

/-!
Verification development for the configuration-handling core of the
aws-spa-hosting-kit repository: the `ConfigLoader` (loading, default
application, validation) and the `PipelineConfigGenerator` (buildspec
generation).

Optional or possibly-absent string fields of the configuration are
modelled as `Option String`; the JavaScript falsiness test `!s` on a
string field holds exactly when the field is absent (`none`) or the
empty string, which `strTruthy` captures.  The JavaScript `a || b`
default idiom on strings is captured by `jsOr`.  The regular
expressions used by the validator are modelled as executable functions
over the character list of the string.
-/

namespace SpaHostingKit

/-! ## Data model (src/config/types.ts) -/

structure GitHubConfig where
  repositoryUrl : Option String
  branch : Option String
deriving DecidableEq, Repr

structure AwsConfig where
  region : Option String
  accountId : Option String
deriving DecidableEq, Repr

structure DomainConfig where
  customDomain : Option String
  certificateArn : Option String
deriving DecidableEq, Repr

structure NotificationConfig where
  email : Option String
deriving DecidableEq, Repr

structure BuildConfig where
  outputDirectory : Option String
  buildCommand : Option String
  installCommand : Option String
deriving DecidableEq, Repr

structure HostingConfig where
  projectName : Option String
  github : Option GitHubConfig
  aws : Option AwsConfig
  domain : Option DomainConfig
  notifications : Option NotificationConfig
  build : Option BuildConfig
deriving DecidableEq, Repr

structure ValidationResult where
  valid : Bool
  errors : List String
  warnings : List String
deriving DecidableEq, Repr

/-! ## JavaScript string semantics -/

/-- JavaScript truthiness of a possibly-absent string: `false` for an
absent field and for the empty string. -/
def strTruthy : Option String → Bool
  | none => false
  | some s => !s.isEmpty

/-- The JavaScript default idiom `s || d` on a possibly-absent string
field: the value itself when present and non-empty, the default
otherwise. -/
def jsOr (o : Option String) (d : String) : String :=
  match o with
  | some s => if s.isEmpty then d else s
  | none => d

/-- Character class `[a-zA-Z0-9-_]` (equivalently `[\w-]`) of the
validator regular expressions. -/
def isWordOrHyphenChar (c : Char) : Bool :=
  c.isAlpha || c.isDigit || c == '_' || c == '-'

/-- Strip an expected leading character sequence, returning the rest of
the input when the input begins with it. -/
def stripLead : List Char → List Char → Option (List Char)
  | [], cs => some cs
  | _ :: _, [] => none
  | p :: ps, c :: cs => if p == c then stripLead ps cs else none

/-- The regular expression `^[a-zA-Z0-9-_]+$` used for `projectName`. -/
def projectNameMatches (s : String) : Bool :=
  !s.data.isEmpty && s.data.all isWordOrHyphenChar

/-- The part after `https://github.com/` must be `owner/repo` with both
segments non-empty sequences of `[\w-]` characters. -/
def repoPathMatches (cs : List Char) : Bool :=
  let owner := cs.takeWhile (fun c => c != '/')
  match cs.dropWhile (fun c => c != '/') with
  | '/' :: repo =>
    !owner.isEmpty && owner.all isWordOrHyphenChar &&
    !repo.isEmpty && repo.all isWordOrHyphenChar
  | _ => false

/-- The regular expression
`^https:\/\/github\.com\/[\w-]+\/[\w-]+$` used for
`github.repositoryUrl`. -/
def githubUrlMatches (s : String) : Bool :=
  match stripLead "https://github.com/".data s.data with
  | some rest => repoPathMatches rest
  | none => false

/-- The whitespace class `\s` of JavaScript regular expressions: the
ECMAScript WhiteSpace and LineTerminator characters, namely TAB, LF,
VT, FF, CR, SP, NBSP (U+00A0), U+1680, U+2000 to U+200A, the line and
paragraph separators U+2028 and U+2029, U+202F, U+205F, U+3000 and
ZWNBSP (U+FEFF). -/
def isJsSpace (c : Char) : Bool :=
  c == '\t' || c == '\n' || c == '\x0b' || c == '\x0c' || c == '\r' || c == ' ' ||
  c == '\u00A0' || c == '\u1680' ||
  (0x2000 ≤ c.toNat && c.toNat ≤ 0x200A) ||
  c == '\u2028' || c == '\u2029' || c == '\u202F' || c == '\u205F' ||
  c == '\u3000' || c == '\uFEFF'

/-- The regular expression `^[^\s@]+@[^\s@]+\.[^\s@]+$` used for
`notifications.email`: no whitespace, exactly one `@` with a non-empty
part before it, and a dot strictly inside the part after it. -/
def emailMatches (s : String) : Bool :=
  let cs := s.data
  cs.all (fun c => !isJsSpace c) &&
  cs.count '@' == 1 &&
  (let localPart := cs.takeWhile (fun c => c != '@')
   let domainPart := (cs.dropWhile (fun c => c != '@')).drop 1
   !localPart.isEmpty && ((domainPart.drop 1).dropLast.contains '.'))

/-- Substring occurrence at the head of a character list. -/
def leadsWith : List Char → List Char → Bool
  | [], _ => true
  | _ :: _, [] => false
  | n :: ns, h :: hs => n == h && leadsWith ns hs

/-- Substring occurrence anywhere in a character list. -/
def hasSub (needle : String) : List Char → Bool
  | [] => needle.data.isEmpty
  | c :: rest => leadsWith needle.data (c :: rest) || hasSub needle rest

/-- `mentions hay needle` holds when `needle` occurs as a contiguous
substring of `hay`. -/
def mentions (hay needle : String) : Bool :=
  hasSub needle hay.data

/-! ## ConfigLoader (src/config/config-loader.ts) -/

namespace ConfigLoader

/-- Default maintainer email for notifications. -/
def DEFAULT_NOTIFICATION_EMAIL : String := "rusty@example.com"

/-- Apply default values to configuration
(`ConfigLoader.applyDefaults`). -/
def applyDefaults (config : HostingConfig) : HostingConfig :=
  { config with
    github := some
      { repositoryUrl := config.github.bind (fun g => g.repositoryUrl)
        branch := some (jsOr (config.github.bind (fun g => g.branch)) "main") }
    notifications := some
      { email := some (jsOr (config.notifications.bind (fun n => n.email))
          DEFAULT_NOTIFICATION_EMAIL) }
    build := some
      { outputDirectory := some (jsOr (config.build.bind (fun b => b.outputDirectory)) "dist")
        buildCommand := some (jsOr (config.build.bind (fun b => b.buildCommand)) "npm run build")
        installCommand := some (jsOr (config.build.bind (fun b => b.installCommand)) "npm ci") } }

/-- The errors of `ConfigLoader.load`, by the taxonomy of the design
document: file missing, YAML parse failure, empty document. -/
inductive LoadError where
  | NotFoundError (filePath : String)
  | ParseError (filePath : String) (message : String)
  | EmptyDocumentError (filePath : String)
deriving DecidableEq, Repr

/-- Outcome of the external YAML parser on the file contents: either a
thrown parse failure, or a parsed document, where `none` models a falsy
parse result (empty document). -/
inductive YamlOutcome where
  | failure (message : String)
  | success (doc : Option HostingConfig)
deriving DecidableEq, Repr

/-- `ConfigLoader.load`: the filesystem probe (`fs.existsSync`) and the
YAML parser are external collaborators, modelled by the `fileExists`
and `yamlResult` arguments. -/
def load (fileExists : Bool) (yamlResult : YamlOutcome) (filePath : String) :
    Except LoadError HostingConfig :=
  if !fileExists then
    .error (.NotFoundError filePath)
  else
    match yamlResult with
    | .failure m => .error (.ParseError filePath m)
    | .success none => .error (.EmptyDocumentError filePath)
    | .success (some config) => .ok (applyDefaults config)

/-! ### Validation messages -/

def missingProjectNameMsg : String := "Missing required field: projectName"

def invalidProjectNameMsg : String :=
  "Invalid projectName format. Use only alphanumeric characters, hyphens, and underscores."

def missingGithubMsg : String := "Missing required field: github"

def missingRepositoryUrlMsg : String := "Missing required field: github.repositoryUrl"

def invalidRepositoryUrlMsg : String :=
  "Invalid GitHub repository URL. Expected format: https://github.com/owner/repo"

def missingAwsMsg : String := "Missing required field: aws"

def missingRegionMsg : String := "Missing required field: aws.region"

def invalidRegionMsg (r : String) : String :=
  "Invalid AWS region \x27" ++ r ++
    "\x27. Must be a valid AWS region that supports CodePipeline, CodeBuild, and CodeStar Connections."

def certRequiredMsg : String :=
  "domain.certificateArn is required when domain.customDomain is specified"

def regionWarningMsg : String :=
  "ACM certificates for CloudFront must be created in us-east-1. Consider using us-east-1 region for custom domain setup."

def invalidEmailMsg (e : String) : String :=
  "Invalid notification email format: \x27" ++ e ++ "\x27"

/-- The enumerated set of valid AWS regions. -/
def validRegions : List String :=
  [ "us-east-1", "us-east-2", "us-west-1", "us-west-2",
    "af-south-1", "ap-east-1", "ap-south-1", "ap-south-2",
    "ap-northeast-1", "ap-northeast-2", "ap-northeast-3",
    "ap-southeast-1", "ap-southeast-2", "ap-southeast-3", "ap-southeast-4",
    "ca-central-1", "eu-central-1", "eu-central-2",
    "eu-west-1", "eu-west-2", "eu-west-3",
    "eu-south-1", "eu-south-2", "eu-north-1",
    "il-central-1", "me-south-1", "me-central-1",
    "sa-east-1" ]

/-- Errors pushed by the `projectName` block of `validate`. -/
def projectNameErrors (config : HostingConfig) : List String :=
  match config.projectName with
  | none => [missingProjectNameMsg]
  | some pn =>
    if pn.isEmpty then [missingProjectNameMsg]
    else if !projectNameMatches pn then [invalidProjectNameMsg]
    else []

/-- Errors pushed by the `github` block of `validate`. -/
def githubErrors (config : HostingConfig) : List String :=
  match config.github with
  | none => [missingGithubMsg]
  | some g =>
    match g.repositoryUrl with
    | none => [missingRepositoryUrlMsg]
    | some u =>
      if u.isEmpty then [missingRepositoryUrlMsg]
      else if !githubUrlMatches u then [invalidRepositoryUrlMsg]
      else []

/-- `config.domain?.customDomain` truthiness. -/
def hasCustomDomain (config : HostingConfig) : Bool :=
  match config.domain with
  | some d => strTruthy d.customDomain
  | none => false

/-- Errors pushed by the `aws` block of `validate`. -/
def awsErrors (config : HostingConfig) : List String :=
  match config.aws with
  | none => [missingAwsMsg]
  | some a =>
    match a.region with
    | none => [missingRegionMsg]
    | some r =>
      if r.isEmpty then [missingRegionMsg]
      else if !validRegions.contains r then [invalidRegionMsg r]
      else []

/-- The warning pushed by the `aws` block of `validate`: region present
but not us-east-1 while a custom domain is configured. -/
def awsWarnings (config : HostingConfig) : List String :=
  match config.aws with
  | none => []
  | some a =>
    match a.region with
    | none => []
    | some r =>
      if r.isEmpty then []
      else if r != "us-east-1" && hasCustomDomain config then [regionWarningMsg]
      else []

/-- Errors pushed by the `domain` block of `validate`. -/
def domainErrors (config : HostingConfig) : List String :=
  match config.domain with
  | none => []
  | some d =>
    if strTruthy d.customDomain && !strTruthy d.certificateArn then [certRequiredMsg]
    else []

/-- Errors pushed by the `notifications` block of `validate`. -/
def emailErrors (config : HostingConfig) : List String :=
  match config.notifications with
  | none => []
  | some n =>
    match n.email with
    | none => []
    | some e =>
      if e.isEmpty then []
      else if !emailMatches e then [invalidEmailMsg e]
      else []

/-- `ConfigLoader.validate`: the blocks run unconditionally in source
order, each appending its messages; validity is emptiness of the final
error list. -/
def validate (config : HostingConfig) : ValidationResult :=
  let errors :=
    projectNameErrors config ++ githubErrors config ++ awsErrors config ++
      domainErrors config ++ emailErrors config
  { valid := errors.isEmpty
    errors := errors
    warnings := awsWarnings config }

end ConfigLoader

/-! ## PipelineConfigGenerator (src/pipeline/...) -/

/-! ### BuildSpec types (src/pipeline/buildspec-types.ts);
the hyphenated TypeScript keys `runtime-versions` and `base-directory`
are rendered as `runtimeVersions` and `baseDirectory`, the key `variables` as `vars`,
and the `Record<string, string>` maps as association lists. -/

structure BuildPhase where
  commands : List String
  runtimeVersions : Option (List (String × String))
deriving DecidableEq, Repr

structure BuildPhases where
  install : Option BuildPhase
  preBuild : Option BuildPhase
  build : Option BuildPhase
  postBuild : Option BuildPhase
deriving DecidableEq, Repr

structure BuildArtifacts where
  files : List String
  baseDirectory : String
deriving DecidableEq, Repr

structure BuildEnvironment where
  vars : Option (List (String × String))
deriving DecidableEq, Repr

structure BuildSpec where
  version : String
  phases : BuildPhases
  artifacts : BuildArtifacts
  env : Option BuildEnvironment
deriving DecidableEq, Repr

namespace PipelineConfigGenerator

/-- `PipelineConfigGenerator.generateBuildSpec`. -/
def generateBuildSpec (config : HostingConfig) : BuildSpec :=
  let installCommand := jsOr (config.build.bind (fun b => b.installCommand)) "npm ci"
  let buildCommand := jsOr (config.build.bind (fun b => b.buildCommand)) "npm run build"
  let outputDirectory := jsOr (config.build.bind (fun b => b.outputDirectory)) "dist"
  { version := "0.2"
    phases :=
      { install := some
          { runtimeVersions := some [("nodejs", "20")]
            commands := [installCommand] }
        preBuild := none
        build := some
          { commands := [buildCommand]
            runtimeVersions := none }
        postBuild := none }
    artifacts :=
      { files := ["**/*"]
        baseDirectory := outputDirectory }
    env := none }

end PipelineConfigGenerator

/-! ## Concrete configurations for the scenarios of the design document -/

/-- The raw document `projectName: my-app`,
`source.repositoryUrl: https://github.com/acme/site`,
`region: us-east-1`, and no other fields. -/
def rawMyApp : HostingConfig :=
  { projectName := some "my-app"
    github := some { repositoryUrl := some "https://github.com/acme/site", branch := none }
    aws := some { region := some "us-east-1", accountId := none }
    domain := none
    notifications := none
    build := none }

/-- `rawMyApp` after `applyDefaults`, written out literally. -/
def cfgScenario : HostingConfig :=
  { projectName := some "my-app"
    github := some { repositoryUrl := some "https://github.com/acme/site", branch := some "main" }
    aws := some { region := some "us-east-1", accountId := none }
    domain := none
    notifications := some { email := some "rusty@example.com" }
    build := some
      { outputDirectory := some "dist"
        buildCommand := some "npm run build"
        installCommand := some "npm ci" } }

/-- The scenario configuration with `repositoryUrl: not-a-url`. -/
def cfgNotAUrl : HostingConfig :=
  { rawMyApp with github := some { repositoryUrl := some "not-a-url", branch := none } }

/-- `region: us-west-2` together with a custom domain and its
certificate. -/
def cfgWest : HostingConfig :=
  { rawMyApp with
      aws := some { region := some "us-west-2", accountId := none }
      domain := some
        { customDomain := some "example.com"
          certificateArn := some "arn:aws:acm:us-east-1:123456789012:certificate/abc" } }

/-- `domain.customDomain` set and no `domain.certificateArn`. -/
def cfgNoCert : HostingConfig :=
  { rawMyApp with
      domain := some { customDomain := some "example.com", certificateArn := none } }

/-- `domain.customDomain` set together with `domain.certificateArn`. -/
def cfgWithCert : HostingConfig :=
  { rawMyApp with
      domain := some
        { customDomain := some "example.com"
          certificateArn := some "arn:aws:acm:us-east-1:123456789012:certificate/abc" } }

/-- Two simultaneous violations: a `projectName` with forbidden
characters and an unknown region. -/
def cfgTwoBad : HostingConfig :=
  { projectName := some "my app!"
    github := some { repositoryUrl := some "https://github.com/acme/site", branch := none }
    aws := some { region := some "mars-1", accountId := none }
    domain := none
    notifications := none
    build := none }

/-- A configuration that passes validation while carrying
`build.installCommand: ""` (the validator never inspects `build`). -/
def cfgEmptyInstall : HostingConfig :=
  { rawMyApp with
      build := some { outputDirectory := none, buildCommand := none, installCommand := some "" } }

/-- A configuration with all three build fields set and non-empty. -/
def cfgBuildSet : HostingConfig :=
  { rawMyApp with
      build := some
        { outputDirectory := some "build"
          buildCommand := some "yarn build"
          installCommand := some "yarn install" } }

/-- A raw document whose optional string fields are present but equal
to the empty string. -/
def rawEmptyFields : HostingConfig :=
  { projectName := some "my-app"
    github := some { repositoryUrl := some "https://github.com/acme/site", branch := some "" }
    aws := some { region := some "us-east-1", accountId := none }
    domain := none
    notifications := some { email := some "" }
    build := some { outputDirectory := some "", buildCommand := some "", installCommand := some "" } }

/-! ## Shared lemmas -/

open ConfigLoader PipelineConfigGenerator

theorem jsOr_isEmpty_false (o : Option String) (d : String) (hd : d.isEmpty = false) :
    (jsOr o d).isEmpty = false := by
  unfold jsOr
  match o with
  | none => exact hd
  | some s =>
    by_cases hs : s.isEmpty = true
    · simp [hs, hd]
    · simp at hs
      simp [hs]

theorem projectNameMatches_isEmpty_false (s : String) (h : projectNameMatches s = true) :
    s.isEmpty = false := by
  cases he : s.isEmpty with
  | false => rfl
  | true =>
    rw [(String.isEmpty_iff s).mp he] at h
    exact absurd h (by decide)

theorem githubUrlMatches_isEmpty_false (s : String) (h : githubUrlMatches s = true) :
    s.isEmpty = false := by
  cases he : s.isEmpty with
  | false => rfl
  | true =>
    rw [(String.isEmpty_iff s).mp he] at h
    exact absurd h (by decide)

theorem region_mem_isEmpty_false (r : String) (h : validRegions.contains r = true) :
    r.isEmpty = false := by
  cases he : r.isEmpty with
  | false => rfl
  | true =>
    rw [(String.isEmpty_iff r).mp he] at h
    exact absurd h (by decide)

theorem validate_errors_eq (config : HostingConfig) :
    (validate config).errors =
      projectNameErrors config ++ githubErrors config ++ awsErrors config ++
        domainErrors config ++ emailErrors config := rfl

theorem validate_valid_eq (config : HostingConfig) :
    (validate config).valid = (validate config).errors.isEmpty := rfl

theorem validate_warnings_eq (config : HostingConfig) :
    (validate config).warnings = awsWarnings config := rfl

theorem valid_false_of_mem (config : HostingConfig) (x : String)
    (hx : x ∈ (validate config).errors) : (validate config).valid = false := by
  rw [validate_valid_eq]
  cases h : (validate config).errors with
  | nil => exact absurd (h ▸ hx) (List.not_mem_nil x)
  | cons a t => rfl

theorem projectNameErrors_ok (config : HostingConfig) (pn : String)
    (h1 : config.projectName = some pn) (h2 : projectNameMatches pn = true) :
    projectNameErrors config = [] := by
  have hne := projectNameMatches_isEmpty_false pn h2
  simp [projectNameErrors, h1, hne, h2]

theorem githubErrors_ok (config : HostingConfig) (g : GitHubConfig) (u : String)
    (h1 : config.github = some g) (h2 : g.repositoryUrl = some u)
    (h3 : githubUrlMatches u = true) : githubErrors config = [] := by
  have hne := githubUrlMatches_isEmpty_false u h3
  simp [githubErrors, h1, h2, hne, h3]

theorem awsErrors_ok (config : HostingConfig) (a : AwsConfig) (r : String)
    (h1 : config.aws = some a) (h2 : a.region = some r)
    (h3 : validRegions.contains r = true) : awsErrors config = [] := by
  have hne := region_mem_isEmpty_false r h3
  have hmem : r ∈ validRegions := by simpa using h3
  simp [awsErrors, h1, h2, hne, h3, hmem]

theorem domainErrors_ok (config : HostingConfig)
    (hdom : ∀ d, config.domain = some d → strTruthy d.customDomain = true →
      strTruthy d.certificateArn = true) : domainErrors config = [] := by
  cases hd : config.domain with
  | none => simp [domainErrors, hd]
  | some d =>
    cases hcd : strTruthy d.customDomain with
    | false => simp [domainErrors, hd, hcd]
    | true => simp [domainErrors, hd, hcd, hdom d hd hcd]

theorem emailErrors_ok (config : HostingConfig)
    (hem : ∀ n e, config.notifications = some n → n.email = some e →
      e.isEmpty = false → emailMatches e = true) : emailErrors config = [] := by
  cases hn : config.notifications with
  | none => simp [emailErrors, hn]
  | some n =>
    cases hne : n.email with
    | none => simp [emailErrors, hn, hne]
    | some e =>
      cases he : e.isEmpty with
      | true => simp [emailErrors, hn, hne, he]
      | false => simp [emailErrors, hn, hne, he, hem n e hn hne he]

/-! ## Claim theorems -/

/-- C1: every configuration whose required fields are present and
well-formed and whose optional fields, when present, satisfy their
format rules is accepted by `validate` with an empty error list. -/
theorem validate_accepts_wellformed (config : HostingConfig) (pn u r : String)
    (g : GitHubConfig) (a : AwsConfig)
    (hpn : config.projectName = some pn) (hpnm : projectNameMatches pn = true)
    (hg : config.github = some g) (hu : g.repositoryUrl = some u)
    (hum : githubUrlMatches u = true)
    (ha : config.aws = some a) (hr : a.region = some r)
    (hrm : validRegions.contains r = true)
    (hdom : ∀ d, config.domain = some d → strTruthy d.customDomain = true →
      strTruthy d.certificateArn = true)
    (hem : ∀ n e, config.notifications = some n → n.email = some e →
      e.isEmpty = false → emailMatches e = true) :
    (validate config).valid = true ∧ (validate config).errors = [] := by
  have h1 := projectNameErrors_ok config pn hpn hpnm
  have h2 := githubErrors_ok config g u hg hu hum
  have h3 := awsErrors_ok config a r ha hr hrm
  have h4 := domainErrors_ok config hdom
  have h5 := emailErrors_ok config hem
  constructor
  · rw [validate_valid_eq, validate_errors_eq, h1, h2, h3, h4, h5]; rfl
  · rw [validate_errors_eq, h1, h2, h3, h4, h5]; rfl

/-- Witness for C1, on the scenario of the design document: loading the
`my-app` document applies the branch default, and the loaded
configuration validates with no errors. -/
theorem validate_accepts_wellformed_scenario :
    applyDefaults rawMyApp = cfgScenario
    ∧ (validate cfgScenario).valid = true ∧ (validate cfgScenario).errors = [] := by
  refine ⟨by decide, ?_⟩
  exact validate_accepts_wellformed cfgScenario "my-app" "https://github.com/acme/site"
    "us-east-1"
    { repositoryUrl := some "https://github.com/acme/site", branch := some "main" }
    { region := some "us-east-1", accountId := none }
    rfl (by decide) rfl rfl (by decide) rfl rfl (by decide)
    (fun d hd => nomatch hd)
    (fun n e hn he hne => by
      rw [show cfgScenario.notifications = some { email := some "rusty@example.com" }
        from rfl] at hn
      injection hn with h
      rw [← h] at he
      injection he with h2
      rw [← h2]
      decide)

/-- C4: on a document whose optional fields are absent, `load` succeeds
with exactly the documented defaults filled in (branch `main`, the
fallback notification email, `npm ci`, `npm run build`, `dist`) and
every user-supplied field unchanged. -/
theorem load_fills_documented_defaults (filePath : String) (config : HostingConfig)
    (u : Option String)
    (hg : config.github = some { repositoryUrl := u, branch := none })
    (hn : config.notifications = none) (hb : config.build = none) :
    load true (.success (some config)) filePath = .ok
      { config with
        github := some { repositoryUrl := u, branch := some "main" }
        notifications := some { email := some "rusty@example.com" }
        build := some
          { outputDirectory := some "dist"
            buildCommand := some "npm run build"
            installCommand := some "npm ci" } } := by
  simp [load, applyDefaults, hg, hn, hb, jsOr, DEFAULT_NOTIFICATION_EMAIL]

/-- Witness for C4 on the scenario document. -/
theorem load_fills_documented_defaults_scenario :
    load true (.success (some rawMyApp)) "spa-config.yaml" = .ok cfgScenario := by
  have h := load_fills_documented_defaults "spa-config.yaml" rawMyApp
    (some "https://github.com/acme/site") rfl rfl rfl
  rw [h]
  exact congrArg Except.ok (by decide)

/-- C5: `load` fails with `NotFoundError` exactly when the file is
absent, with `ParseError` exactly when the YAML parser fails, with
`EmptyDocumentError` exactly when the parsed document is falsy, fails
in no other way, and otherwise returns the parsed configuration with
defaults applied. -/
theorem load_error_taxonomy (fileExists : Bool) (yamlResult : YamlOutcome)
    (filePath : String) :
    (fileExists = false →
      load fileExists yamlResult filePath = .error (.NotFoundError filePath))
    ∧ (∀ m, fileExists = true → yamlResult = .failure m →
      load fileExists yamlResult filePath = .error (.ParseError filePath m))
    ∧ (fileExists = true → yamlResult = .success none →
      load fileExists yamlResult filePath = .error (.EmptyDocumentError filePath))
    ∧ (∀ c, fileExists = true → yamlResult = .success (some c) →
      load fileExists yamlResult filePath = .ok (applyDefaults c))
    ∧ (∀ err, load fileExists yamlResult filePath = .error err →
      (fileExists = false ∧ err = .NotFoundError filePath)
      ∨ (∃ m, yamlResult = .failure m ∧ err = .ParseError filePath m)
      ∨ (yamlResult = .success none ∧ err = .EmptyDocumentError filePath)) := by
  refine ⟨?_, ?_, ?_, ?_, ?_⟩
  · intro h; subst h; simp [load]
  · intro m h1 h2; subst h1; subst h2; simp [load]
  · intro h1 h2; subst h1; subst h2; simp [load]
  · intro c h1 h2; subst h1; subst h2; simp [load]
  · intro err herr
    cases hfe : fileExists with
    | false =>
      subst hfe
      simp [load] at herr
      exact Or.inl ⟨rfl, herr.symm⟩
    | true =>
      subst hfe
      cases hy : yamlResult with
      | failure m =>
        subst hy
        simp [load] at herr
        exact Or.inr (Or.inl ⟨m, rfl, herr.symm⟩)
      | success doc =>
        subst hy
        cases doc with
        | none =>
          simp [load] at herr
          exact Or.inr (Or.inr ⟨rfl, herr.symm⟩)
        | some c =>
          simp [load] at herr

/-- Witness for C5: the four outcomes at concrete inputs. -/
theorem load_error_taxonomy_scenario :
    load false (.success (some rawMyApp)) "missing.yaml"
        = .error (.NotFoundError "missing.yaml")
    ∧ load true (.failure "bad indent") "broken.yaml"
        = .error (.ParseError "broken.yaml" "bad indent")
    ∧ load true (.success none) "empty.yaml" = .error (.EmptyDocumentError "empty.yaml")
    ∧ load true (.success (some rawMyApp)) "spa-config.yaml"
        = .ok (applyDefaults rawMyApp) :=
  ⟨(load_error_taxonomy false (.success (some rawMyApp)) "missing.yaml").1 rfl,
   (load_error_taxonomy true (.failure "bad indent") "broken.yaml").2.1 "bad indent" rfl rfl,
   (load_error_taxonomy true (.success none) "empty.yaml").2.2.1 rfl rfl,
   (load_error_taxonomy true (.success (some rawMyApp)) "spa-config.yaml").2.2.2.1
     rawMyApp rfl rfl⟩

theorem mem_errors_of_projectNameErrors (config : HostingConfig) (x : String)
    (h : x ∈ projectNameErrors config) : x ∈ (validate config).errors := by
  rw [validate_errors_eq]
  exact List.mem_append_left _ (List.mem_append_left _
    (List.mem_append_left _ (List.mem_append_left _ h)))

theorem mem_errors_of_githubErrors (config : HostingConfig) (x : String)
    (h : x ∈ githubErrors config) : x ∈ (validate config).errors := by
  rw [validate_errors_eq]
  exact List.mem_append_left _ (List.mem_append_left _
    (List.mem_append_left _ (List.mem_append_right _ h)))

theorem mem_errors_of_awsErrors (config : HostingConfig) (x : String)
    (h : x ∈ awsErrors config) : x ∈ (validate config).errors := by
  rw [validate_errors_eq]
  exact List.mem_append_left _ (List.mem_append_left _ (List.mem_append_right _ h))

theorem mem_errors_of_domainErrors (config : HostingConfig) (x : String)
    (h : x ∈ domainErrors config) : x ∈ (validate config).errors := by
  rw [validate_errors_eq]
  exact List.mem_append_left _ (List.mem_append_right _ h)

theorem mem_errors_of_emailErrors (config : HostingConfig) (x : String)
    (h : x ∈ emailErrors config) : x ∈ (validate config).errors := by
  rw [validate_errors_eq]
  exact List.mem_append_right _ h

theorem strTruthy_false_cases (o : Option String) (h : strTruthy o = false) :
    o = none ∨ ∃ s, o = some s ∧ s.isEmpty = true := by
  cases o with
  | none => exact Or.inl rfl
  | some s => exact Or.inr ⟨s, rfl, by simpa [strTruthy] using h⟩

theorem projectNameErrors_shape (config : HostingConfig) (x : String)
    (h : x ∈ projectNameErrors config) :
    x = missingProjectNameMsg ∨ x = invalidProjectNameMsg := by
  unfold projectNameErrors at h
  split at h
  · exact Or.inl (by simpa using h)
  · split at h
    · exact Or.inl (by simpa using h)
    · split at h
      · exact Or.inr (by simpa using h)
      · simp at h

theorem githubErrors_shape (config : HostingConfig) (x : String)
    (h : x ∈ githubErrors config) :
    x = missingGithubMsg ∨ x = missingRepositoryUrlMsg ∨ x = invalidRepositoryUrlMsg := by
  unfold githubErrors at h
  split at h
  · exact Or.inl (by simpa using h)
  · split at h
    · exact Or.inr (Or.inl (by simpa using h))
    · split at h
      · exact Or.inr (Or.inl (by simpa using h))
      · split at h
        · exact Or.inr (Or.inr (by simpa using h))
        · simp at h

theorem awsErrors_shape (config : HostingConfig) (x : String)
    (h : x ∈ awsErrors config) :
    x = missingAwsMsg ∨ x = missingRegionMsg ∨ ∃ r, x = invalidRegionMsg r := by
  unfold awsErrors at h
  split at h
  · exact Or.inl (by simpa using h)
  · split at h
    · exact Or.inr (Or.inl (by simpa using h))
    · split at h
      · exact Or.inr (Or.inl (by simpa using h))
      · split at h
        · rename_i a r _ _ _
          exact Or.inr (Or.inr ⟨r, by simpa using h⟩)
        · simp at h

theorem emailErrors_shape (config : HostingConfig) (x : String)
    (h : x ∈ emailErrors config) : ∃ e, x = invalidEmailMsg e := by
  unfold emailErrors at h
  split at h
  · simp at h
  · split at h
    · simp at h
    · split at h
      · simp at h
      · split at h
        · rename_i n e _ _ _
          exact ⟨e, by simpa using h⟩
        · simp at h

theorem invalidRegionMsg_data_head (r : String) :
    (invalidRegionMsg r).data.head? = some 'I' := rfl

theorem invalidEmailMsg_data_head (e : String) :
    (invalidEmailMsg e).data.head? = some 'I' := rfl

theorem invalidRegionMsg_ne_certRequiredMsg (r : String) :
    invalidRegionMsg r ≠ certRequiredMsg := by
  intro h
  have h2 : some 'I' = some 'd' := by
    calc some 'I' = (invalidRegionMsg r).data.head? := (invalidRegionMsg_data_head r).symm
    _ = certRequiredMsg.data.head? := by rw [h]
    _ = some 'd' := rfl
  simp at h2

theorem invalidEmailMsg_ne_certRequiredMsg (e : String) :
    invalidEmailMsg e ≠ certRequiredMsg := by
  intro h
  have h2 : some 'I' = some 'd' := by
    calc some 'I' = (invalidEmailMsg e).data.head? := (invalidEmailMsg_data_head e).symm
    _ = certRequiredMsg.data.head? := by rw [h]
    _ = some 'd' := rfl
  simp at h2

/-- C2 counterexample: on the `repositoryUrl: not-a-url` scenario,
`validate` does return valid=false with a non-empty error list, but no
error message contains the literal field name `repositoryUrl` (the
message speaks of the `GitHub repository URL`). -/
theorem validate_not_a_url_no_field_name :
    (validate cfgNotAUrl).valid = false
    ∧ (validate cfgNotAUrl).errors ≠ []
    ∧ (∀ e ∈ (validate cfgNotAUrl).errors, mentions e "repositoryUrl" = false) := by
  decide

/-- C2 (amended): every missing required field or format violation
makes `validate` return valid=false with that rule's message in the
error list; each message contains the offending field name except the
repository-URL format message, which refers to the GitHub repository
URL in prose and does not contain the literal name `repositoryUrl`. -/
theorem validate_flags_all_violations (config : HostingConfig) :
    (strTruthy config.projectName = false →
      missingProjectNameMsg ∈ (validate config).errors ∧ (validate config).valid = false)
    ∧ (∀ pn, config.projectName = some pn → pn.isEmpty = false →
        projectNameMatches pn = false →
        invalidProjectNameMsg ∈ (validate config).errors ∧ (validate config).valid = false)
    ∧ (config.github = none →
        missingGithubMsg ∈ (validate config).errors ∧ (validate config).valid = false)
    ∧ (∀ g, config.github = some g → strTruthy g.repositoryUrl = false →
        missingRepositoryUrlMsg ∈ (validate config).errors ∧ (validate config).valid = false)
    ∧ (∀ g u, config.github = some g → g.repositoryUrl = some u → u.isEmpty = false →
        githubUrlMatches u = false →
        invalidRepositoryUrlMsg ∈ (validate config).errors ∧ (validate config).valid = false)
    ∧ (config.aws = none →
        missingAwsMsg ∈ (validate config).errors ∧ (validate config).valid = false)
    ∧ (∀ a, config.aws = some a → strTruthy a.region = false →
        missingRegionMsg ∈ (validate config).errors ∧ (validate config).valid = false)
    ∧ (∀ a r, config.aws = some a → a.region = some r → r.isEmpty = false →
        validRegions.contains r = false →
        invalidRegionMsg r ∈ (validate config).errors ∧ (validate config).valid = false)
    ∧ (∀ d, config.domain = some d → strTruthy d.customDomain = true →
        strTruthy d.certificateArn = false →
        certRequiredMsg ∈ (validate config).errors ∧ (validate config).valid = false)
    ∧ (∀ n e, config.notifications = some n → n.email = some e → e.isEmpty = false →
        emailMatches e = false →
        invalidEmailMsg e ∈ (validate config).errors ∧ (validate config).valid = false)
    ∧ mentions invalidRepositoryUrlMsg "repositoryUrl" = false
    ∧ mentions invalidRepositoryUrlMsg "repository URL" = true
    ∧ mentions missingProjectNameMsg "projectName" = true
    ∧ mentions invalidProjectNameMsg "projectName" = true
    ∧ mentions missingRepositoryUrlMsg "repositoryUrl" = true
    ∧ mentions missingRegionMsg "region" = true
    ∧ mentions certRequiredMsg "certificateArn" = true := by
  refine ⟨?_, ?_, ?_, ?_, ?_, ?_, ?_, ?_, ?_, ?_,
    by decide, by decide, by decide, by decide, by decide, by decide, by decide⟩
  · intro h
    have hblock : projectNameErrors config = [missingProjectNameMsg] := by
      rcases strTruthy_false_cases _ h with hnone | ⟨s, hs, he⟩
      · simp [projectNameErrors, hnone]
      · simp [projectNameErrors, hs, he]
    have hmem := mem_errors_of_projectNameErrors config _
      (hblock ▸ List.mem_singleton_self _)
    exact ⟨hmem, valid_false_of_mem config _ hmem⟩
  · intro pn h1 h2 h3
    have hblock : projectNameErrors config = [invalidProjectNameMsg] := by
      simp [projectNameErrors, h1, h2, h3]
    have hmem := mem_errors_of_projectNameErrors config _
      (hblock ▸ List.mem_singleton_self _)
    exact ⟨hmem, valid_false_of_mem config _ hmem⟩
  · intro h
    have hblock : githubErrors config = [missingGithubMsg] := by
      simp [githubErrors, h]
    have hmem := mem_errors_of_githubErrors config _
      (hblock ▸ List.mem_singleton_self _)
    exact ⟨hmem, valid_false_of_mem config _ hmem⟩
  · intro g h1 h2
    have hblock : githubErrors config = [missingRepositoryUrlMsg] := by
      rcases strTruthy_false_cases _ h2 with hnone | ⟨s, hs, he⟩
      · simp [githubErrors, h1, hnone]
      · simp [githubErrors, h1, hs, he]
    have hmem := mem_errors_of_githubErrors config _
      (hblock ▸ List.mem_singleton_self _)
    exact ⟨hmem, valid_false_of_mem config _ hmem⟩
  · intro g u h1 h2 h3 h4
    have hblock : githubErrors config = [invalidRepositoryUrlMsg] := by
      simp [githubErrors, h1, h2, h3, h4]
    have hmem := mem_errors_of_githubErrors config _
      (hblock ▸ List.mem_singleton_self _)
    exact ⟨hmem, valid_false_of_mem config _ hmem⟩
  · intro h
    have hblock : awsErrors config = [missingAwsMsg] := by
      simp [awsErrors, h]
    have hmem := mem_errors_of_awsErrors config _
      (hblock ▸ List.mem_singleton_self _)
    exact ⟨hmem, valid_false_of_mem config _ hmem⟩
  · intro a h1 h2
    have hblock : awsErrors config = [missingRegionMsg] := by
      rcases strTruthy_false_cases _ h2 with hnone | ⟨s, hs, he⟩
      · simp [awsErrors, h1, hnone]
      · simp [awsErrors, h1, hs, he]
    have hmem := mem_errors_of_awsErrors config _
      (hblock ▸ List.mem_singleton_self _)
    exact ⟨hmem, valid_false_of_mem config _ hmem⟩
  · intro a r h1 h2 h3 h4
    have hnmem : r ∉ validRegions := by simpa using h4
    have hblock : awsErrors config = [invalidRegionMsg r] := by
      simp [awsErrors, h1, h2, h3, h4, hnmem]
    have hmem := mem_errors_of_awsErrors config _
      (hblock ▸ List.mem_singleton_self _)
    exact ⟨hmem, valid_false_of_mem config _ hmem⟩
  · intro d h1 h2 h3
    have hblock : domainErrors config = [certRequiredMsg] := by
      simp [domainErrors, h1, h2, h3]
    have hmem := mem_errors_of_domainErrors config _
      (hblock ▸ List.mem_singleton_self _)
    exact ⟨hmem, valid_false_of_mem config _ hmem⟩
  · intro n e h1 h2 h3 h4
    have hblock : emailErrors config = [invalidEmailMsg e] := by
      simp [emailErrors, h1, h2, h3, h4]
    have hmem := mem_errors_of_emailErrors config _
      (hblock ▸ List.mem_singleton_self _)
    exact ⟨hmem, valid_false_of_mem config _ hmem⟩

/-- Witness for C2 (amended) on the `not-a-url` scenario. -/
theorem validate_flags_all_violations_scenario :
    invalidRepositoryUrlMsg ∈ (validate cfgNotAUrl).errors
    ∧ (validate cfgNotAUrl).valid = false :=
  (validate_flags_all_violations cfgNotAUrl).2.2.2.2.1
    { repositoryUrl := some "not-a-url", branch := none } "not-a-url"
    rfl rfl (by decide) (by decide)

/-- C6: with a custom domain configured, a missing `certificateArn` is
an error naming `domain.certificateArn`, and a present `certificateArn`
produces no such error. -/
theorem validate_certificateArn_rule (config : HostingConfig) (d : DomainConfig)
    (hd : config.domain = some d) (hcd : strTruthy d.customDomain = true) :
    (strTruthy d.certificateArn = false →
      (validate config).valid = false ∧ certRequiredMsg ∈ (validate config).errors)
    ∧ (strTruthy d.certificateArn = true →
      certRequiredMsg ∉ (validate config).errors) := by
  constructor
  · intro hca
    have hblock : domainErrors config = [certRequiredMsg] := by
      simp [domainErrors, hd, hcd, hca]
    have hmem := mem_errors_of_domainErrors config _
      (hblock ▸ List.mem_singleton_self _)
    exact ⟨valid_false_of_mem config _ hmem, hmem⟩
  · intro hca hmem
    rw [validate_errors_eq] at hmem
    simp only [List.mem_append] at hmem
    rcases hmem with ((((h1 | h2) | h3) | h4) | h5)
    · rcases projectNameErrors_shape config _ h1 with h | h <;> exact absurd h (by decide)
    · rcases githubErrors_shape config _ h2 with h | h | h <;> exact absurd h (by decide)
    · rcases awsErrors_shape config _ h3 with h | h | ⟨r, h⟩
      · exact absurd h (by decide)
      · exact absurd h (by decide)
      · exact invalidRegionMsg_ne_certRequiredMsg r h.symm
    · have hblock : domainErrors config = [] := by
        simp [domainErrors, hd, hcd, hca]
      rw [hblock] at h4
      simp at h4
    · rcases emailErrors_shape config _ h5 with ⟨e, h⟩
      exact invalidEmailMsg_ne_certRequiredMsg e h.symm

/-- Witness for C6 on the two custom-domain scenarios. -/
theorem validate_certificateArn_rule_scenario :
    ((validate cfgNoCert).valid = false ∧ certRequiredMsg ∈ (validate cfgNoCert).errors)
    ∧ certRequiredMsg ∉ (validate cfgWithCert).errors :=
  ⟨(validate_certificateArn_rule cfgNoCert
      { customDomain := some "example.com", certificateArn := none }
      rfl (by decide)).1 (by decide),
   (validate_certificateArn_rule cfgWithCert
      { customDomain := some "example.com"
        certificateArn := some "arn:aws:acm:us-east-1:123456789012:certificate/abc" }
      rfl (by decide)).2 (by decide)⟩

/-- C7: a present region other than us-east-1 together with a custom
domain yields the us-east-1 recommendation among the warnings, and
warnings never affect validity (an empty error list means valid). -/
theorem validate_region_warning (config : HostingConfig) (a : AwsConfig) (r : String)
    (d : DomainConfig)
    (ha : config.aws = some a) (hr : a.region = some r) (hne : r.isEmpty = false)
    (hus : r ≠ "us-east-1") (hd : config.domain = some d)
    (hcd : strTruthy d.customDomain = true) :
    regionWarningMsg ∈ (validate config).warnings
    ∧ ((validate config).errors = [] → (validate config).valid = true) := by
  constructor
  · rw [validate_warnings_eq]
    have hb : (r != "us-east-1") = true := by simpa using hus
    have hcdom : hasCustomDomain config = true := by simp [hasCustomDomain, hd, hcd]
    simp [awsWarnings, ha, hr, hne, hb, hcdom]
  · intro h
    rw [validate_valid_eq, h]
    rfl

/-- Witness for C7 on the us-west-2 scenario: the warning is present
while the result stays valid with no errors. -/
theorem validate_region_warning_scenario :
    regionWarningMsg ∈ (validate cfgWest).warnings
    ∧ (validate cfgWest).valid = true ∧ (validate cfgWest).errors = [] :=
  ⟨(validate_region_warning cfgWest { region := some "us-west-2", accountId := none }
      "us-west-2"
      { customDomain := some "example.com"
        certificateArn := some "arn:aws:acm:us-east-1:123456789012:certificate/abc" }
      rfl rfl (by decide) (by decide) rfl (by decide)).1,
   by decide, by decide⟩

/-- C8: rule violations are collected independently, one message per
violated rule, in the order the rules are stated: with an invalid
`projectName` and an invalid region (all other rules satisfied) the
error list is exactly those two messages in rule order, and validity is
false. -/
theorem validate_collects_violations_in_order (config : HostingConfig) (pn : String)
    (g : GitHubConfig) (u : String) (a : AwsConfig) (r : String)
    (hpn : config.projectName = some pn) (hpne : pn.isEmpty = false)
    (hpnm : projectNameMatches pn = false)
    (hg : config.github = some g) (hu : g.repositoryUrl = some u)
    (hum : githubUrlMatches u = true)
    (ha : config.aws = some a) (hr : a.region = some r) (hrne : r.isEmpty = false)
    (hrm : validRegions.contains r = false)
    (hdom : config.domain = none) (hnot : config.notifications = none) :
    (validate config).errors = [invalidProjectNameMsg, invalidRegionMsg r]
    ∧ (validate config).valid = false := by
  have h1 : projectNameErrors config = [invalidProjectNameMsg] := by
    simp [projectNameErrors, hpn, hpne, hpnm]
  have h2 := githubErrors_ok config g u hg hu hum
  have hnmem : r ∉ validRegions := by simpa using hrm
  have h3 : awsErrors config = [invalidRegionMsg r] := by
    simp [awsErrors, ha, hr, hrne, hrm, hnmem]
  have h4 : domainErrors config = [] := by simp [domainErrors, hdom]
  have h5 : emailErrors config = [] := by simp [emailErrors, hnot]
  constructor
  · rw [validate_errors_eq, h1, h2, h3, h4, h5]; rfl
  · rw [validate_valid_eq, validate_errors_eq, h1, h2, h3, h4, h5]; rfl

/-- Witness for C8: invalid project name together with an unknown
region gives exactly the two messages, in rule order. -/
theorem validate_collects_violations_in_order_scenario :
    (validate cfgTwoBad).errors = [invalidProjectNameMsg, invalidRegionMsg "mars-1"]
    ∧ (validate cfgTwoBad).valid = false :=
  validate_collects_violations_in_order cfgTwoBad "my app!"
    { repositoryUrl := some "https://github.com/acme/site", branch := none }
    "https://github.com/acme/site"
    { region := some "mars-1", accountId := none } "mars-1"
    rfl (by decide) (by decide) rfl rfl (by decide) rfl rfl (by decide) (by decide)
    rfl rfl

theorem applyDefaults_github (config : HostingConfig) :
    (applyDefaults config).github = some
      { repositoryUrl := config.github.bind (fun x => x.repositoryUrl)
        branch := some (jsOr (config.github.bind (fun x => x.branch)) "main") } := rfl

theorem applyDefaults_notifications (config : HostingConfig) :
    (applyDefaults config).notifications = some
      { email := some (jsOr (config.notifications.bind (fun x => x.email))
          DEFAULT_NOTIFICATION_EMAIL) } := rfl

theorem applyDefaults_build (config : HostingConfig) :
    (applyDefaults config).build = some
      { outputDirectory := some (jsOr (config.build.bind (fun x => x.outputDirectory)) "dist")
        buildCommand := some (jsOr (config.build.bind (fun x => x.buildCommand)) "npm run build")
        installCommand := some (jsOr (config.build.bind (fun x => x.installCommand)) "npm ci") }
    := rfl

theorem emptyString_isEmpty : ("" : String).isEmpty = true := by decide

/-- C3 counterexample: a configuration that `validate` accepts may
carry `build.installCommand` present but equal to `""` (the validator
never inspects `build`); on it the generated install commands are
`["npm ci"]`, not `[installCommand] = [""]`, although the field is not
absent. -/
theorem generateBuildSpec_empty_command_fallback :
    (validate cfgEmptyInstall).valid = true
    ∧ cfgEmptyInstall.build = some
        { outputDirectory := none, buildCommand := none, installCommand := some "" }
    ∧ (generateBuildSpec cfgEmptyInstall).phases.install.map (fun p => p.commands)
        = some ["npm ci"]
    ∧ (generateBuildSpec cfgEmptyInstall).phases.install.map (fun p => p.commands)
        ≠ some [""] := by
  decide

/-- C3 (amended): for every valid configuration the generated buildspec
has version 0.2, artifact files `**/*`, install commands
`[build.installCommand]`, build commands `[build.buildCommand]` and
base directory `build.outputDirectory`, falling back to `npm ci`,
`npm run build` and `dist` when the respective field is absent or the
empty string. -/
theorem generateBuildSpec_output_format (config : HostingConfig)
    (hvalid : (validate config).valid = true) :
    (generateBuildSpec config).version = "0.2"
    ∧ (generateBuildSpec config).artifacts.files = ["**/*"]
    ∧ (∀ s, config.build.bind (fun b => b.installCommand) = some s → s.isEmpty = false →
        (generateBuildSpec config).phases.install.map (fun p => p.commands) = some [s])
    ∧ (config.build.bind (fun b => b.installCommand) = none →
        (generateBuildSpec config).phases.install.map (fun p => p.commands) = some ["npm ci"])
    ∧ (config.build.bind (fun b => b.installCommand) = some "" →
        (generateBuildSpec config).phases.install.map (fun p => p.commands) = some ["npm ci"])
    ∧ (∀ s, config.build.bind (fun b => b.buildCommand) = some s → s.isEmpty = false →
        (generateBuildSpec config).phases.build.map (fun p => p.commands) = some [s])
    ∧ (config.build.bind (fun b => b.buildCommand) = none →
        (generateBuildSpec config).phases.build.map (fun p => p.commands)
          = some ["npm run build"])
    ∧ (config.build.bind (fun b => b.buildCommand) = some "" →
        (generateBuildSpec config).phases.build.map (fun p => p.commands)
          = some ["npm run build"])
    ∧ (∀ s, config.build.bind (fun b => b.outputDirectory) = some s → s.isEmpty = false →
        (generateBuildSpec config).artifacts.baseDirectory = s)
    ∧ (config.build.bind (fun b => b.outputDirectory) = none →
        (generateBuildSpec config).artifacts.baseDirectory = "dist")
    ∧ (config.build.bind (fun b => b.outputDirectory) = some "" →
        (generateBuildSpec config).artifacts.baseDirectory = "dist") := by
  refine ⟨rfl, rfl, ?_, ?_, ?_, ?_, ?_, ?_, ?_, ?_, ?_⟩
  · intro s h he; simp [generateBuildSpec, h, jsOr, he]
  · intro h; simp [generateBuildSpec, h, jsOr]
  · intro h; simp [generateBuildSpec, h, jsOr, emptyString_isEmpty]
  · intro s h he; simp [generateBuildSpec, h, jsOr, he]
  · intro h; simp [generateBuildSpec, h, jsOr]
  · intro h; simp [generateBuildSpec, h, jsOr, emptyString_isEmpty]
  · intro s h he; simp [generateBuildSpec, h, jsOr, he]
  · intro h; simp [generateBuildSpec, h, jsOr]
  · intro h; simp [generateBuildSpec, h, jsOr, emptyString_isEmpty]

/-- Witness for C3 (amended) on a valid configuration with all build
fields present and non-empty. -/
theorem generateBuildSpec_output_format_scenario :
    (generateBuildSpec cfgBuildSet).version = "0.2"
    ∧ (generateBuildSpec cfgBuildSet).phases.install.map (fun p => p.commands)
        = some ["yarn install"]
    ∧ (generateBuildSpec cfgBuildSet).artifacts.baseDirectory = "build" := by
  have h := generateBuildSpec_output_format cfgBuildSet (by decide)
  exact ⟨h.1, h.2.2.1 "yarn install" rfl (by decide),
    h.2.2.2.2.2.2.2.2.1 "build" rfl (by decide)⟩

/-- C9: an optional string field that is present but empty is replaced
by `applyDefaults` exactly as if it were absent, and a configuration
returned by `applyDefaults` never carries an empty string in branch,
email, or any build field. -/
theorem applyDefaults_empty_string_as_absent (config : HostingConfig) :
    (∀ g, config.github = some g → g.branch = some "" →
      applyDefaults config
        = applyDefaults { config with github := some { g with branch := none } })
    ∧ (∀ n, config.notifications = some n → n.email = some "" →
      applyDefaults config
        = applyDefaults { config with notifications := some { n with email := none } })
    ∧ (∀ b, config.build = some b → b.installCommand = some "" →
      applyDefaults config
        = applyDefaults { config with build := some { b with installCommand := none } })
    ∧ (∀ b, config.build = some b → b.buildCommand = some "" →
      applyDefaults config
        = applyDefaults { config with build := some { b with buildCommand := none } })
    ∧ (∀ b, config.build = some b → b.outputDirectory = some "" →
      applyDefaults config
        = applyDefaults { config with build := some { b with outputDirectory := none } })
    ∧ (∀ g s, (applyDefaults config).github = some g → g.branch = some s →
        s.isEmpty = false)
    ∧ (∀ n s, (applyDefaults config).notifications = some n → n.email = some s →
        s.isEmpty = false)
    ∧ (∀ b s, (applyDefaults config).build = some b → b.installCommand = some s →
        s.isEmpty = false)
    ∧ (∀ b s, (applyDefaults config).build = some b → b.buildCommand = some s →
        s.isEmpty = false)
    ∧ (∀ b s, (applyDefaults config).build = some b → b.outputDirectory = some s →
        s.isEmpty = false) := by
  refine ⟨?_, ?_, ?_, ?_, ?_, ?_, ?_, ?_, ?_, ?_⟩
  · intro g hg hb; simp [applyDefaults, hg, hb, jsOr, emptyString_isEmpty]
  · intro n hn he; simp [applyDefaults, hn, he, jsOr, emptyString_isEmpty]
  · intro b hb hc; simp [applyDefaults, hb, hc, jsOr, emptyString_isEmpty]
  · intro b hb hc; simp [applyDefaults, hb, hc, jsOr, emptyString_isEmpty]
  · intro b hb hc; simp [applyDefaults, hb, hc, jsOr, emptyString_isEmpty]
  · intro g s hg hs
    rw [applyDefaults_github config] at hg
    injection hg with h
    rw [← h] at hs
    injection hs with h2
    rw [← h2]
    exact jsOr_isEmpty_false _ _ (by decide)
  · intro n s hn hs
    rw [applyDefaults_notifications config] at hn
    injection hn with h
    rw [← h] at hs
    injection hs with h2
    rw [← h2]
    exact jsOr_isEmpty_false _ _ (by decide)
  · intro b s hb hs
    rw [applyDefaults_build config] at hb
    injection hb with h
    rw [← h] at hs
    injection hs with h2
    rw [← h2]
    exact jsOr_isEmpty_false _ _ (by decide)
  · intro b s hb hs
    rw [applyDefaults_build config] at hb
    injection hb with h
    rw [← h] at hs
    injection hs with h2
    rw [← h2]
    exact jsOr_isEmpty_false _ _ (by decide)
  · intro b s hb hs
    rw [applyDefaults_build config] at hb
    injection hb with h
    rw [← h] at hs
    injection hs with h2
    rw [← h2]
    exact jsOr_isEmpty_false _ _ (by decide)

/-- Witness for C9 on a document whose optional fields are all present
but empty: the result coincides with the result on the same document
with those fields removed. -/
theorem applyDefaults_empty_string_as_absent_scenario :
    applyDefaults rawEmptyFields
      = applyDefaults { rawEmptyFields with
          github := some { repositoryUrl := some "https://github.com/acme/site"
                           branch := none } }
    ∧ applyDefaults rawEmptyFields
      = applyDefaults { rawEmptyFields with notifications := some { email := none } } :=
  ⟨(applyDefaults_empty_string_as_absent rawEmptyFields).1
      { repositoryUrl := some "https://github.com/acme/site", branch := some "" } rfl rfl,
   (applyDefaults_empty_string_as_absent rawEmptyFields).2.1
      { email := some "" } rfl rfl⟩

/-- C10: the install phase of every generated buildspec carries the
runtime-versions entry `nodejs: 20`, identically for all inputs. -/
theorem generateBuildSpec_runtime_versions (config : HostingConfig) :
    (generateBuildSpec config).phases.install.map (fun p => p.runtimeVersions)
      = some (some [("nodejs", "20")]) := rfl

/-- Witness for C10 at the scenario configuration. -/
theorem generateBuildSpec_runtime_versions_scenario :
    (generateBuildSpec rawMyApp).phases.install.map (fun p => p.runtimeVersions)
      = some (some [("nodejs", "20")]) :=
  generateBuildSpec_runtime_versions rawMyApp

end SpaHostingKit
